import Mathlib

/-!
Verification development for the fowergram backend authentication and
session-lifecycle subsystem.  The definitions below are a shallow embedding of
the Go source: the JWT authentication service (pkg/auth, the fuller draft with
verification and reset flows), the PostgreSQL-backed user and token
repositories (internal/domain/post/service.go and
internal/domain/user/verification.go), the HTTP auth handlers
(internal/handlers), and the Redis-backed rate limiter
(pkg/middleware/rate_limiter.go).  Instants are natural numbers, database
tables are lists of records, and SQL queries become list traversals that mirror
the WHERE clauses of the source verbatim.
-/

namespace Fowergram

/-- Instants (time.Time) are modelled as natural numbers, in seconds. -/
abbrev Time := Nat

/-- One hour, matching time.Hour in the units of this model. -/
def hourSeconds : Nat := 3600

/-! ## bcrypt (golang.org/x/crypto/bcrypt)

A bcrypt hash string encodes a cost, a salt and a digest that can be
re-verified against a candidate password.  The model keeps exactly the data
needed for the verification semantics of CompareHashAndPassword: comparing a
hash produced from password p against candidate q succeeds iff p = q.  The
constructor `empty` models the empty string stored after the service blanks
the HashedPassword field of a response. -/

inductive BCHash where
  | empty : BCHash
  | digest (cost salt : Nat) (password : String) : BCHash
  deriving DecidableEq, Repr

/-- bcrypt.GenerateFromPassword with an explicit salt drawn from the random
source. -/
def bcryptGenerateFromPassword (cost salt : Nat) (password : String) : BCHash :=
  .digest cost salt password

/-- bcrypt.CompareHashAndPassword: returns true on match, false otherwise
(never an error on a plain mismatch). -/
def bcryptCompareHashAndPassword : BCHash → String → Bool
  | .empty, _ => false
  | .digest _ _ pw, p => pw == p

/-! ## Errors (pkg/auth AuthError values and fmt.Errorf wrapping) -/

/-- Error values that flow out of the auth subsystem.  The named constructors
correspond to the AuthError values of pkg/auth; `errorf` is a plain
fmt.Errorf message and `wrap` is fmt.Errorf with a %w-wrapped inner error. -/
inductive AuthErr where
  | invalidCredentials : AuthErr
  | userNotFound : AuthErr
  | userExists : AuthErr
  | invalidToken : AuthErr
  | unauthorized : AuthErr
  | emailAlreadyVerified : AuthErr
  | errorf (msg : String) : AuthErr
  | wrap (msg : String) (inner : AuthErr) : AuthErr
  deriving DecidableEq, Repr

/-- The innermost error of a chain of %w wrappings, as errors.Is would
unwrap it. -/
def AuthErr.base : AuthErr → AuthErr
  | .wrap _ e => e.base
  | e => e

/-! ## Users (pkg/auth User struct, users table) -/

/-- The User struct of pkg/auth (uuid.UUID identifiers are modelled as
naturals). -/
structure User where
  id : Nat
  email : String
  username : String
  hashedPassword : BCHash
  fullName : String
  bio : String
  profilePicture : String
  isActive : Bool
  isVerified : Bool
  isPrivate : Bool
  followersCount : Nat
  followingCount : Nat
  postsCount : Nat
  createdAt : Time
  updatedAt : Time
  lastLoginAt : Option Time
  deriving DecidableEq, Repr

/-! ## Token records (refresh_tokens, email_verifications, password_resets) -/

/-- A row of the refresh_tokens table. -/
structure RefreshTokenRecord where
  id : Nat
  userID : Nat
  tokenHash : String
  expiresAt : Time
  createdAt : Time
  revokedAt : Option Time
  deriving DecidableEq, Repr

/-- A row of the email_verifications or password_resets table (the two tables
share this shape). -/
structure SingleUseRecord where
  userID : Nat
  token : String
  expiresAt : Time
  createdAt : Time
  usedAt : Option Time
  deriving DecidableEq, Repr

/-- The durable state the auth subsystem reads and writes: the users table and
the three token tables. -/
structure Store where
  users : List User
  refreshTokens : List RefreshTokenRecord
  emailVerifications : List SingleUseRecord
  passwordResets : List SingleUseRecord
  deriving DecidableEq, Repr

/-! ## User repository (internal/domain/post/service.go, postgresRepository) -/

/-- GetUserByEmail: SELECT ... FROM users WHERE email = $1 AND is_active =
true; pgx.ErrNoRows becomes ErrUserNotFound. -/
def postgresGetUserByEmail (s : Store) (email : String) : Except AuthErr User :=
  match s.users.find? (fun u => u.email == email && u.isActive) with
  | some u => .ok u
  | none => .error .userNotFound

/-- GetUserByID: SELECT ... FROM users WHERE id = $1; pgx.ErrNoRows becomes
ErrUserNotFound. -/
def postgresGetUserByID (s : Store) (id : Nat) : Except AuthErr User :=
  match s.users.find? (fun u => u.id == id) with
  | some u => .ok u
  | none => .error .userNotFound

/-- CreateUser: INSERT INTO users ...; the UNIQUE constraints of the schema
(email, username, primary key) make a duplicate insert fail. -/
def postgresCreateUser (s : Store) (u : User) : Except AuthErr Store :=
  if s.users.any (fun v => v.email == u.email || v.username == u.username || v.id == u.id) then
    .error (.wrap "failed to create user" (.errorf "unique constraint violation"))
  else
    .ok { s with users := s.users ++ [u] }

/-- UpdatePassword: UPDATE users SET hashed_password = $1, updated_at = $2
WHERE id = $3. -/
def postgresUpdatePassword (s : Store) (userID : Nat) (hashed : BCHash) (now : Time) : Store :=
  { s with users := s.users.map (fun u =>
      if u.id == userID then { u with hashedPassword := hashed, updatedAt := now } else u) }

/-- StoreRefreshToken: INSERT INTO refresh_tokens (id, user_id, token_hash,
expires_at, created_at) VALUES (...) with a fresh row id. -/
def postgresStoreRefreshToken (s : Store) (rowID userID : Nat) (tokenHash : String)
    (expiresAt now : Time) : Store :=
  { s with refreshTokens := s.refreshTokens ++
      [{ id := rowID, userID := userID, tokenHash := tokenHash,
         expiresAt := expiresAt, createdAt := now, revokedAt := none }] }

/-- The WHERE clause of ValidateRefreshToken on a single joined row:
rt.token_hash = $1 AND rt.expires_at > $2 AND rt.revoked_at IS NULL AND
u.is_active = true, joining users u ON u.id = rt.user_id. -/
def refreshRowUser (s : Store) (tokenHash : String) (now : Time)
    (rt : RefreshTokenRecord) : Option User :=
  if rt.tokenHash == tokenHash && decide (now < rt.expiresAt) && rt.revokedAt == none then
    match s.users.find? (fun u => u.id == rt.userID) with
    | some u => if u.isActive then some u else none
    | none => none
  else
    none

/-- ValidateRefreshToken: runs the join query above; pgx.ErrNoRows becomes
ErrInvalidToken. -/
def postgresValidateRefreshToken (s : Store) (tokenHash : String) (now : Time) :
    Except AuthErr User :=
  match s.refreshTokens.filterMap (refreshRowUser s tokenHash now) with
  | [] => .error .invalidToken
  | u :: _ => .ok u

/-- RevokeRefreshToken: UPDATE refresh_tokens SET revoked_at = $1 WHERE
token_hash = $2 AND revoked_at IS NULL.  Updating zero rows is not an
error. -/
def postgresRevokeRefreshToken (s : Store) (tokenHash : String) (now : Time) : Store :=
  { s with refreshTokens := s.refreshTokens.map (fun rt =>
      if rt.tokenHash == tokenHash && rt.revokedAt == none then
        { rt with revokedAt := some now }
      else rt) }

/-! ## Verification repository (internal/domain/user/verification.go) -/

/-- StoreVerificationToken: INSERT INTO email_verifications (user_id, token,
expires_at, created_at) VALUES (...). -/
def postgresStoreVerificationToken (s : Store) (userID : Nat) (token : String)
    (expiresAt now : Time) : Store :=
  { s with emailVerifications := s.emailVerifications ++
      [{ userID := userID, token := token, expiresAt := expiresAt,
         createdAt := now, usedAt := none }] }

/-- The WHERE clause shared by ValidateVerificationToken and
ValidatePasswordResetToken on one joined row: token = $1 AND expires_at > $2
AND used_at IS NULL, joining users u ON u.id = row.user_id. -/
def singleUseRowUser (s : Store) (token : String) (now : Time)
    (row : SingleUseRecord) : Option User :=
  if row.token == token && decide (now < row.expiresAt) && row.usedAt == none then
    s.users.find? (fun u => u.id == row.userID)
  else
    none

/-- ValidateVerificationToken: runs the join query over email_verifications;
pgx.ErrNoRows becomes ErrInvalidToken. -/
def postgresValidateVerificationToken (s : Store) (token : String) (now : Time) :
    Except AuthErr User :=
  match s.emailVerifications.filterMap (singleUseRowUser s token now) with
  | [] => .error .invalidToken
  | u :: _ => .ok u

/-- The step of the MarkEmailVerified transaction at which an injected
database failure occurs. -/
inductive TxStep where
  | beginTx : TxStep
  | updUser : TxStep
  | updToken : TxStep
  | commitTx : TxStep
  deriving DecidableEq, Repr

/-- MarkEmailVerified: BEGIN; UPDATE users SET is_verified = true, updated_at
= $1 WHERE id = $2; UPDATE email_verifications SET used_at = $1 WHERE user_id
= $2 AND used_at IS NULL; COMMIT, with a deferred ROLLBACK on any failure.
`failAt` injects a database failure at the named step; because every write
happens inside the transaction, an error result carries no store and the
caller observes the original state (the rollback). -/
def postgresMarkEmailVerified (s : Store) (userID : Nat) (now : Time)
    (failAt : Option TxStep) : Except AuthErr Store :=
  if failAt == some TxStep.beginTx then
    .error (.wrap "failed to begin transaction" (.errorf "db failure"))
  else if failAt == some TxStep.updUser then
    .error (.wrap "failed to update user verification status" (.errorf "db failure"))
  else
    let s1 : Store := { s with users := s.users.map (fun u =>
        if u.id == userID then { u with isVerified := true, updatedAt := now } else u) }
    if failAt == some TxStep.updToken then
      .error (.wrap "failed to mark verification token as used" (.errorf "db failure"))
    else
      let s2 : Store := { s1 with emailVerifications := s1.emailVerifications.map (fun ev =>
          if ev.userID == userID && ev.usedAt == none then { ev with usedAt := some now } else ev) }
      if failAt == some TxStep.commitTx then
        .error (.wrap "failed to commit transaction" (.errorf "db failure"))
      else
        .ok s2

/-- The state and error actually observed by the caller of MarkEmailVerified:
on success the committed store, on failure the original store (the
transaction rolled back). -/
def runMarkEmailVerified (s : Store) (userID : Nat) (now : Time)
    (failAt : Option TxStep) : Store × Option AuthErr :=
  match postgresMarkEmailVerified s userID now failAt with
  | .ok s2 => (s2, none)
  | .error e => (s, some e)

/-- StorePasswordResetToken: INSERT INTO password_resets (user_id, token,
expires_at, created_at) VALUES (...). -/
def postgresStorePasswordResetToken (s : Store) (userID : Nat) (token : String)
    (expiresAt now : Time) : Store :=
  { s with passwordResets := s.passwordResets ++
      [{ userID := userID, token := token, expiresAt := expiresAt,
         createdAt := now, usedAt := none }] }

/-- ValidatePasswordResetToken: runs the join query over password_resets;
pgx.ErrNoRows becomes ErrInvalidToken. -/
def postgresValidatePasswordResetToken (s : Store) (token : String) (now : Time) :
    Except AuthErr User :=
  match s.passwordResets.filterMap (singleUseRowUser s token now) with
  | [] => .error .invalidToken
  | u :: _ => .ok u

/-- RevokePasswordResetToken: UPDATE password_resets SET used_at = $1 WHERE
token = $2 AND used_at IS NULL.  Updating zero rows is not an error. -/
def postgresRevokePasswordResetToken (s : Store) (token : String) (now : Time) : Store :=
  { s with passwordResets := s.passwordResets.map (fun pr =>
      if pr.token == token && pr.usedAt == none then { pr with usedAt := some now } else pr) }

/-! ## JWT (github.com/golang-jwt/jwt/v5)

A compact signed token is a header (carrying the algorithm), a claims payload
and a signature over both.  The MAC is modelled symbolically: signing with
algorithm a and key k over claims c yields the triple (a, k, c), and
verification recomputes and compares it, so a signature checks out exactly
when it was produced with the same algorithm, key and claims. -/

/-- JWT signing algorithms.  Issuance in the source uses
jwt.SigningMethodHS256; the parse key functions accept any
*jwt.SigningMethodHMAC, i.e. any of HS256/HS384/HS512. -/
inductive Alg where
  | HS256 : Alg
  | HS384 : Alg
  | HS512 : Alg
  | RS256 : Alg
  | ES256 : Alg
  | algNone : Alg
  deriving DecidableEq, Repr

/-- Whether the method is *jwt.SigningMethodHMAC (the type assertion in the
key functions). -/
def Alg.isHMAC : Alg → Bool
  | .HS256 => true
  | .HS384 => true
  | .HS512 => true
  | _ => false

/-- A signed compact token over a claims payload of type α. -/
structure SignedTok (α : Type) where
  alg : Alg
  claims : α
  sig : Alg × String × α
  deriving DecidableEq, Repr

/-- Signing a claims payload: jwt.NewWithClaims followed by
token.SignedString(key). -/
def jwtSign {α : Type} (alg : Alg) (key : String) (claims : α) : SignedTok α :=
  { alg := alg, claims := claims, sig := (alg, key, claims) }

/-- Claims of an access token (pkg/auth Claims struct, including the
registered claims the source sets). -/
structure AccessClaims where
  userID : Nat
  email : String
  username : String
  expiresAt : Time
  issuedAt : Time
  subject : Nat
  deriving DecidableEq, Repr

/-- Claims of a refresh token (pkg/auth RefreshClaims struct). -/
structure RefreshClaims where
  userID : Nat
  tokenHash : String
  expiresAt : Time
  issuedAt : Time
  subject : Nat
  deriving DecidableEq, Repr

/-! ## JWTAuth service (pkg/auth, the draft with verification and reset) -/

/-- The configuration of the JWTAuth service: the symmetric signing secret and
the two TTLs, injected once at construction (NewJWTAuth).  The repositories
it talks to are the postgres functions over `Store` wired in cmd/server. -/
structure JWTAuth where
  secretKey : String
  accessTokenTTL : Nat
  refreshTokenTTL : Nat
  deriving DecidableEq, Repr

/-- generateAccessToken: claims {user, email, username, exp = now + TTL, iat =
now, sub = user id} signed with HS256 under the service secret. -/
def generateAccessToken (j : JWTAuth) (u : User) (now : Time) : SignedTok AccessClaims :=
  jwtSign .HS256 j.secretKey
    { userID := u.id, email := u.email, username := u.username,
      expiresAt := now + j.accessTokenTTL, issuedAt := now, subject := u.id }

/-- generateRefreshToken: hex-encodes 32 fresh random bytes into a value the
source calls tokenHash, embeds that value in signed refresh claims, and
returns the signed bearer string together with the value to persist.
`randHex` stands for hex.EncodeToString of the bytes read from crypto/rand. -/
def generateRefreshToken (j : JWTAuth) (u : User) (randHex : String) (now : Time) :
    SignedTok RefreshClaims × String :=
  let tokenHash := randHex
  (jwtSign .HS256 j.secretKey
    { userID := u.id, tokenHash := tokenHash,
      expiresAt := now + j.refreshTokenTTL, issuedAt := now, subject := u.id },
   tokenHash)

/-- parseAccessToken: jwt.ParseWithClaims with a key function that rejects any
method that is not *jwt.SigningMethodHMAC, then signature verification, then
registered-claims validation (the token is valid only while now is before
expiresAt).  Every failure is wrapped as fmt.Errorf("invalid token: %w"). -/
def parseAccessToken (secret : String) (now : Time) (tok : SignedTok AccessClaims) :
    Except AuthErr AccessClaims :=
  if tok.alg.isHMAC = false then
    .error (.wrap "invalid token" (.errorf "unexpected signing method"))
  else if tok.sig ≠ (tok.alg, secret, tok.claims) then
    .error (.wrap "invalid token" (.errorf "token signature is invalid"))
  else if tok.claims.expiresAt ≤ now then
    .error (.wrap "invalid token" (.errorf "token is expired"))
  else
    .ok tok.claims

/-- parseRefreshToken: same pipeline as parseAccessToken over refresh claims,
wrapping failures as fmt.Errorf("invalid refresh token: %w"). -/
def parseRefreshToken (secret : String) (now : Time) (tok : SignedTok RefreshClaims) :
    Except AuthErr RefreshClaims :=
  if tok.alg.isHMAC = false then
    .error (.wrap "invalid refresh token" (.errorf "unexpected signing method"))
  else if tok.sig ≠ (tok.alg, secret, tok.claims) then
    .error (.wrap "invalid refresh token" (.errorf "token signature is invalid"))
  else if tok.claims.expiresAt ≤ now then
    .error (.wrap "invalid refresh token" (.errorf "token is expired"))
  else
    .ok tok.claims

/-- CreateUser: rejects when GetUserByEmail finds a user, otherwise hashes the
password, builds the account (active, unverified) and inserts it, returning
it with the password hash blanked.  `newID` is the uuid.New() value, `cost`
and `salt` feed the bcrypt model. -/
def createUser (j : JWTAuth) (s : Store) (email password username : String)
    (newID cost salt : Nat) (now : Time) : Except AuthErr (User × Store) :=
  match postgresGetUserByEmail s email with
  | .ok _ => .error .userExists
  | .error _ =>
    let hashed := bcryptGenerateFromPassword cost salt password
    let user : User :=
      { id := newID, email := email, username := username, hashedPassword := hashed,
        fullName := "", bio := "", profilePicture := "",
        isActive := true, isVerified := false, isPrivate := false,
        followersCount := 0, followingCount := 0, postsCount := 0,
        createdAt := now, updatedAt := now, lastLoginAt := none }
    match postgresCreateUser s user with
    | .error e => .error (.wrap "failed to create user" e)
    | .ok s1 => .ok ({ user with hashedPassword := .empty }, s1)

/-- SignIn: looks the account up by email, rejects with ErrInvalidCredentials
when the lookup fails, with a distinct deactivated error when the account is
inactive, and with ErrInvalidCredentials when the bcrypt comparison fails;
otherwise issues an access token, generates a refresh secret (discarding the
signed bearer string), persists the refresh value, and returns the account
(hash blanked) with the access token.  `randHex` is the refresh randomness
and `refreshRowID` the uuid of the inserted row. -/
def signIn (j : JWTAuth) (s : Store) (email password : String)
    (randHex : String) (refreshRowID : Nat) (now : Time) :
    Except AuthErr (User × SignedTok AccessClaims × Store) :=
  match postgresGetUserByEmail s email with
  | .error _ => .error .invalidCredentials
  | .ok user =>
    if user.isActive = false then
      .error (.errorf "account is deactivated")
    else if bcryptCompareHashAndPassword user.hashedPassword password = false then
      .error .invalidCredentials
    else
      let accessToken := generateAccessToken j user now
      let tokenHash := (generateRefreshToken j user randHex now).2
      let expiresAt := now + j.refreshTokenTTL
      let s1 := postgresStoreRefreshToken s refreshRowID user.id tokenHash expiresAt now
      .ok ({ user with hashedPassword := .empty }, accessToken, s1)

/-- SignOut: parses the refresh token to recover the stored value, then
revokes it.  The repository update of zero rows is not an error, so revoking
twice succeeds. -/
def signOut (j : JWTAuth) (s : Store) (tok : SignedTok RefreshClaims) (now : Time) :
    Except AuthErr Store :=
  match parseRefreshToken j.secretKey now tok with
  | .error e => .error e
  | .ok claims => .ok (postgresRevokeRefreshToken s claims.tokenHash now)

/-- RefreshSession: parses the refresh token, validates the stored value
against the repository (wrapping its failure as "invalid refresh token"),
and issues a new access token for the same account. -/
def refreshSession (j : JWTAuth) (s : Store) (tok : SignedTok RefreshClaims) (now : Time) :
    Except AuthErr (User × SignedTok AccessClaims) :=
  match parseRefreshToken j.secretKey now tok with
  | .error e => .error e
  | .ok claims =>
    match postgresValidateRefreshToken s claims.tokenHash now with
    | .error e => .error (.wrap "invalid refresh token" e)
    | .ok user => .ok ({ user with hashedPassword := .empty }, generateAccessToken j user now)

/-- ValidateSession: parses the access token, re-fetches the account by id
(failure becomes ErrUnauthorized) and rejects a deactivated account even on a
valid token. -/
def validateSession (j : JWTAuth) (s : Store) (tok : SignedTok AccessClaims) (now : Time) :
    Except AuthErr User :=
  match parseAccessToken j.secretKey now tok with
  | .error e => .error e
  | .ok claims =>
    match postgresGetUserByID s claims.userID with
    | .error _ => .error .unauthorized
    | .ok user =>
      if user.isActive = false then
        .error (.errorf "account is deactivated")
      else
        .ok { user with hashedPassword := .empty }

/-- VerifyEmail: validates the verification token, rejects an already-verified
account, and marks the email verified (transactionally).  `failAt` threads
the injected transaction failure of the repository model. -/
def verifyEmail (j : JWTAuth) (s : Store) (token : String) (now : Time)
    (failAt : Option TxStep) : Except AuthErr Store :=
  match postgresValidateVerificationToken s token now with
  | .error e => .error (.wrap "failed to validate verification token" e)
  | .ok user =>
    if user.isVerified then
      .error .emailAlreadyVerified
    else
      match postgresMarkEmailVerified s user.id now failAt with
      | .error e => .error (.wrap "failed to mark email as verified" e)
      | .ok s1 => .ok s1

/-- Outcome of the outbound email collaborator call. -/
inductive EmailOutcome where
  | sent : EmailOutcome
  | failed : EmailOutcome
  deriving DecidableEq, Repr

/-- RequestPasswordReset: when the email lookup fails the service returns nil
without exposing whether the email exists; otherwise it stores a one-hour
reset token and dispatches the email, whose failure is an error but leaves
the stored token in place.  The pair returned is (error, resulting store). -/
def requestPasswordReset (j : JWTAuth) (s : Store) (email : String)
    (randTok : String) (now : Time) (emailResult : EmailOutcome) :
    Option AuthErr × Store :=
  match postgresGetUserByEmail s email with
  | .error _ => (none, s)
  | .ok user =>
    let expiresAt := now + hourSeconds
    let s1 := postgresStorePasswordResetToken s user.id randTok expiresAt now
    match emailResult with
    | .failed => (some (.wrap "failed to send password reset email" (.errorf "smtp failure")), s1)
    | .sent => (none, s1)

/-- ResetPassword: validates the reset token, hashes and stores the new
password, then revokes the token.  The pair returned is (error, resulting
store). -/
def resetPassword (j : JWTAuth) (s : Store) (token newPassword : String)
    (cost salt : Nat) (now : Time) : Option AuthErr × Store :=
  match postgresValidatePasswordResetToken s token now with
  | .error e => (some (.wrap "failed to validate password reset token" e), s)
  | .ok user =>
    let hashed := bcryptGenerateFromPassword cost salt newPassword
    let s1 := postgresUpdatePassword s user.id hashed now
    let s2 := postgresRevokePasswordResetToken s1 token now
    (none, s2)

/-! ## HTTP handlers (internal/handlers AuthHandler) -/

/-- An HTTP response: status code and the distinguishing part of the JSON
body. -/
structure HandlerResponse where
  status : Nat
  body : String
  deriving DecidableEq, Repr

/-- AuthHandler.RequestPasswordReset: calls the service and, whether it
returns an error or not, answers 200 with the same fixed body; the store
changes of the service call persist either way. -/
def requestPasswordResetHandler (j : JWTAuth) (s : Store) (email : String)
    (randTok : String) (now : Time) (emailResult : EmailOutcome) :
    HandlerResponse × Store :=
  let (err, s1) := requestPasswordReset j s email randTok now emailResult
  match err with
  | some _ =>
    ({ status := 200,
       body := "If your email is registered, you will receive a password reset link" }, s1)
  | none =>
    ({ status := 200,
       body := "If your email is registered, you will receive a password reset link" }, s1)

/-- AuthHandler.Signout: returns 200 with a fixed message and performs no call
into the auth service or the repositories. -/
def signoutHandler (s : Store) : HandlerResponse × Store :=
  ({ status := 200, body := "Signed out successfully" }, s)

/-! ## Rate limiter (pkg/middleware/rate_limiter.go) -/

/-- The Redis value behind one rate-limit key: the counter and the instant at
which the key expires. -/
structure RLEntry where
  count : Nat
  expiresAt : Time
  deriving DecidableEq, Repr

/-- The state of one rate-limit key: absent, or present with a TTL. -/
abbrev RLState := Option RLEntry

/-- Redis GET of the counter: an absent or expired key reads as zero (the
redis.Nil branch of the source leaves count at its zero value). -/
def redisGetCount (st : RLState) (now : Time) : Nat :=
  match st with
  | some e => if now < e.expiresAt then e.count else 0
  | none => 0

/-- The pipelined INCR + EXPIRE: INCR creates an absent or expired key at 1,
otherwise adds one; EXPIRE then sets the TTL to a full window from now. -/
def redisIncrExpire (st : RLState) (now window : Time) : RLState :=
  let newCount :=
    match st with
    | some e => if now < e.expiresAt then e.count + 1 else 1
    | none => 1
  some { count := newCount, expiresAt := now + window }

/-- One pass of RateLimiter.Middleware for a request at `now`: read the
counter, reject with 429 when it has reached MaxRequests (without touching
the key), otherwise increment and extend the TTL and let the request
through.  The Bool is true when the request is allowed. -/
def rateLimitStep (maxRequests window : Nat) (st : RLState) (now : Time) :
    Bool × RLState :=
  if maxRequests ≤ redisGetCount st now then
    (false, st)
  else
    (true, redisIncrExpire st now window)

/-- Running the middleware over a sequence of request instants against one
key. -/
def runRateLimiter (maxRequests window : Nat) (st : RLState) :
    List Time → List Bool × RLState
  | [] => ([], st)
  | t :: ts =>
    let step := rateLimitStep maxRequests window st t
    let rest := runRateLimiter maxRequests window step.2 ts
    (step.1 :: rest.1, rest.2)

/-! ## Helper definitions and fixtures shared by the theorems below -/

/-- Decidable equality of Except results, for concrete evaluation. -/
instance {ε α : Type} [DecidableEq ε] [DecidableEq α] : DecidableEq (Except ε α)
  | .ok a, .ok b =>
    if h : a = b then .isTrue (by rw [h]) else .isFalse (by intro hc; cases hc; exact h rfl)
  | .error a, .error b =>
    if h : a = b then .isTrue (by rw [h]) else .isFalse (by intro hc; cases hc; exact h rfl)
  | .ok _, .error _ => .isFalse (by intro hc; cases hc)
  | .error _, .ok _ => .isFalse (by intro hc; cases hc)

/-- Whether an Except result is a failure. -/
def exceptFails {β : Type} : Except AuthErr β → Bool
  | .error _ => true
  | .ok _ => false

/-- Whether every user of the list with the given id has the verified flag
set. -/
def usersVerifiedFor (l : List User) (uid : Nat) : Bool :=
  l.all (fun u => u.id != uid || u.isVerified)

/-- Whether every single-use token row of the list belonging to the given
user carries a used-at timestamp. -/
def rowsUsedFor (l : List SingleUseRecord) (uid : Nat) : Bool :=
  l.all (fun ev => ev.userID != uid || ev.usedAt != none)

/-- A sample service configuration for concrete runs. -/
def jwtFix : JWTAuth :=
  { secretKey := "topsecret", accessTokenTTL := 3600, refreshTokenTTL := 2592000 }

/-- A sample active, unverified account. -/
def aliceFix : User :=
  { id := 1, email := "alice@example.com", username := "alice",
    hashedPassword := bcryptGenerateFromPassword 10 7 "secret1234",
    fullName := "", bio := "", profilePicture := "",
    isActive := true, isVerified := false, isPrivate := false,
    followersCount := 0, followingCount := 0, postsCount := 0,
    createdAt := 0, updatedAt := 0, lastLoginAt := none }

/-- A sample deactivated account. -/
def bobInactiveFix : User :=
  { aliceFix with
    id := 2, email := "bob@example.com", username := "bob",
    hashedPassword := bcryptGenerateFromPassword 10 8 "hunter2000", isActive := false }

/-- A store holding the two sample accounts, one unused verification token and
one unused reset token for alice, and one live refresh record. -/
def storeFix : Store :=
  { users := [aliceFix, bobInactiveFix],
    refreshTokens := [{ id := 11, userID := 1, tokenHash := "RHASH",
                        expiresAt := 1000, createdAt := 0, revokedAt := none }],
    emailVerifications := [{ userID := 1, token := "VTOK", expiresAt := 1000,
                             createdAt := 0, usedAt := none }],
    passwordResets := [{ userID := 1, token := "PTOK", expiresAt := 1000,
                         createdAt := 0, usedAt := none }] }

/-- The empty store. -/
def emptyStore : Store :=
  { users := [], refreshTokens := [], emailVerifications := [], passwordResets := [] }

/-- find? over an appended singleton whose element matches while nothing
before it does. -/
theorem find?_append_singleton {α : Type} (p : α → Bool) (l : List α) (a : α)
    (h : ∀ x ∈ l, p x = false) (ha : p a = true) :
    (l ++ [a]).find? p = some a := by
  rw [List.find?_append]
  have hnone : l.find? p = none := List.find?_eq_none.mpr (by
    intro x hx
    simp [h x hx])
  simp [hnone, List.find?, ha]

/-! ## C10: the signout endpoint is a state-preserving 200 -/

/-- C10: The POST /api/auth/signout handler leaves all stored state unchanged
and answers 200 without invoking any revocation, so every refresh secret
valid before the request validates identically afterwards. -/
theorem signoutHandler_state_frame (s : Store) :
    (signoutHandler s).2 = s ∧
    (signoutHandler s).1 = { status := 200, body := "Signed out successfully" } ∧
    (∀ (h : String) (now : Time),
      postgresValidateRefreshToken (signoutHandler s).2 h now =
        postgresValidateRefreshToken s h now) := by
  exact ⟨rfl, rfl, fun h now => rfl⟩

/-! ## C4: password-reset request response is independent of account
existence -/

/-- C4: requestPasswordReset answers 200 with the same body for every input
email and every store, so the response for an unregistered email is
identical to the response for a registered one (two-run noninterference:
the response does not depend on account existence). -/
theorem requestPasswordResetHandler_uniform (j₁ j₂ : JWTAuth) (s₁ s₂ : Store)
    (e₁ e₂ r₁ r₂ : String) (n₁ n₂ : Time) (o₁ o₂ : EmailOutcome) :
    (requestPasswordResetHandler j₁ s₁ e₁ r₁ n₁ o₁).1 =
      (requestPasswordResetHandler j₂ s₂ e₂ r₂ n₂ o₂).1 ∧
    (requestPasswordResetHandler j₁ s₁ e₁ r₁ n₁ o₁).1.status = 200 := by
  have key : ∀ (j : JWTAuth) (s : Store) (e r : String) (n : Time) (o : EmailOutcome),
      (requestPasswordResetHandler j s e r n o).1 =
        { status := 200,
          body := "If your email is registered, you will receive a password reset link" } := by
    intro j s e r n o
    unfold requestPasswordResetHandler
    rcases requestPasswordReset j s e r n o with ⟨err, s1⟩
    cases err <;> rfl
  refine ⟨?_, ?_⟩
  · rw [key, key]
  · rw [key]

/-! ## C7: MarkEmailVerified is atomic -/

/-- C7: MarkEmailVerified runs both updates inside one transaction: when the
observed run reports no error, the user rows with the given id are verified
and all of the verification token rows of that user are marked used; when it
reports an error, the observed store is exactly the pre-call store (the
transaction rolled back, no partial application). -/
theorem markEmailVerified_atomic (s : Store) (uid : Nat) (now : Time)
    (failAt : Option TxStep) :
    ((runMarkEmailVerified s uid now failAt).2 = none →
      usersVerifiedFor (runMarkEmailVerified s uid now failAt).1.users uid = true ∧
      rowsUsedFor (runMarkEmailVerified s uid now failAt).1.emailVerifications uid = true) ∧
    ((runMarkEmailVerified s uid now failAt).2.isSome →
      (runMarkEmailVerified s uid now failAt).1 = s) := by
  constructor
  · intro hok
    have hsucc : failAt = none := by
      rcases failAt with _ | step
      · rfl
      · cases step <;> simp [runMarkEmailVerified, postgresMarkEmailVerified] at hok
    subst hsucc
    have hrun : runMarkEmailVerified s uid now none =
        ({ s with
            users := s.users.map (fun u =>
              if u.id == uid then { u with isVerified := true, updatedAt := now } else u),
            emailVerifications := s.emailVerifications.map (fun ev =>
              if ev.userID == uid && ev.usedAt == none then
                { ev with usedAt := some now } else ev) }, none) := rfl
    rw [hrun]
    constructor
    · simp only [usersVerifiedFor, List.all_map, List.all_eq_true, Function.comp]
      intro u _
      by_cases hu : u.id = uid <;> simp [hu]
    · simp only [rowsUsedFor, List.all_map, List.all_eq_true, Function.comp]
      intro ev _
      by_cases hev : ev.userID = uid
      · by_cases hused : ev.usedAt = none <;> simp [hev, hused]
      · simp [hev]
  · intro herr
    rcases failAt with _ | step
    · simp [runMarkEmailVerified, postgresMarkEmailVerified] at herr
    · cases step <;> rfl

/-- Witness for C7: on the sample store, the successful run verifies user 1
and uses up the token rows, and an injected failure at the second update
leaves the store untouched. -/
theorem markEmailVerified_atomic_witness :
    (usersVerifiedFor (runMarkEmailVerified storeFix 1 5 none).1.users 1 = true ∧
      rowsUsedFor (runMarkEmailVerified storeFix 1 5 none).1.emailVerifications 1 = true) ∧
    (runMarkEmailVerified storeFix 1 5 (some TxStep.updToken)).1 = storeFix :=
  ⟨(markEmailVerified_atomic storeFix 1 5 none).1 (by decide),
   (markEmailVerified_atomic storeFix 1 5 (some TxStep.updToken)).2 (by decide)⟩

/-! ## C1: sign-in failures are uniform -/

/-- C1: SignIn composed with the wired repository yields the very same
ErrInvalidCredentials value in all three failure cases.  The repository
query filters on is_active = true, so an inactive account is indistinguishable
from an absent one (third conjunct), both land in the not-found branch (first
conjunct), and a password mismatch on a live account gives the same error
(second conjunct). -/
theorem signIn_invalidCredentials_uniform (j : JWTAuth) (s : Store)
    (email password randHex : String) (rowID : Nat) (now : Time) :
    (s.users.find? (fun u => u.email == email && u.isActive) = none →
      signIn j s email password randHex rowID now = .error .invalidCredentials) ∧
    (∀ u : User, s.users.find? (fun v => v.email == email && v.isActive) = some u →
      bcryptCompareHashAndPassword u.hashedPassword password = false →
      signIn j s email password randHex rowID now = .error .invalidCredentials) ∧
    ((∀ u ∈ s.users, u.email = email → u.isActive = false) →
      s.users.find? (fun u => u.email == email && u.isActive) = none) := by
  refine ⟨?_, ?_, ?_⟩
  · intro hnone
    simp only [signIn, postgresGetUserByEmail, hnone]
  · intro u hfound hcmp
    have hactive : u.isActive = true := by
      have := List.find?_some hfound
      simp only [Bool.and_eq_true, beq_iff_eq] at this
      exact this.2
    simp only [signIn, postgresGetUserByEmail, hfound, hactive, hcmp]
    simp
  · intro hall
    refine List.find?_eq_none.mpr ?_
    intro u hu
    simp only [Bool.and_eq_true, beq_iff_eq, not_and]
    intro hemail
    simp [hall u hu hemail]

/-- Witness for C1: on the sample store, signing in with an unknown email,
with the email of the deactivated account, and with a wrong password on the
live account all yield the identical ErrInvalidCredentials value. -/
theorem signIn_invalidCredentials_uniform_witness :
    signIn jwtFix storeFix "nobody@example.com" "whatever" "R" 3 0 =
      .error .invalidCredentials ∧
    signIn jwtFix storeFix "bob@example.com" "hunter2000" "R" 3 0 =
      .error .invalidCredentials ∧
    signIn jwtFix storeFix "alice@example.com" "wrongpass" "R" 3 0 =
      .error .invalidCredentials :=
  ⟨(signIn_invalidCredentials_uniform jwtFix storeFix "nobody@example.com" "whatever" "R" 3 0).1
      (by decide),
   (signIn_invalidCredentials_uniform jwtFix storeFix "bob@example.com" "hunter2000" "R" 3 0).1
      (by decide),
   (signIn_invalidCredentials_uniform jwtFix storeFix "alice@example.com" "wrongpass" "R" 3 0).2.1
      aliceFix (by decide) (by decide)⟩

/-! ## C6: access-token parsing -/

/-- Counterexample for C6: the key function only requires the HMAC family, not
an exact algorithm match.  A token signed with HS384 under the correct
secret parses successfully and validateSession accepts it, although issuance
(generateAccessToken) always signs with HS256, the expected algorithm. -/
theorem parseAccessToken_accepts_hs384_cex :
    parseAccessToken "topsecret" 50
        (jwtSign .HS384 "topsecret"
          ({ userID := 1, email := "alice@example.com", username := "alice",
             expiresAt := 100, issuedAt := 0, subject := 1 } : AccessClaims)) =
      .ok { userID := 1, email := "alice@example.com", username := "alice",
            expiresAt := 100, issuedAt := 0, subject := 1 } ∧
    Alg.HS384 ≠ Alg.HS256 ∧
    (generateAccessToken jwtFix aliceFix 0).alg = Alg.HS256 := by
  decide

/-- C6 (amended): parseAccessToken fails when the algorithm is outside the
HMAC family (any of HS256/HS384/HS512 is accepted, exact-match with the
issuing algorithm is not enforced), when the signature does not verify under
the configured secret, or when expiresAt has passed; and an access token
whose expiresAt has passed always fails validateSession, regardless of
signature validity. -/
theorem parseAccessToken_rejections (secret : String) (now : Time)
    (tok : SignedTok AccessClaims) :
    (tok.alg.isHMAC = false →
      parseAccessToken secret now tok =
        .error (.wrap "invalid token" (.errorf "unexpected signing method"))) ∧
    (tok.alg.isHMAC = true → tok.sig ≠ (tok.alg, secret, tok.claims) →
      parseAccessToken secret now tok =
        .error (.wrap "invalid token" (.errorf "token signature is invalid"))) ∧
    (tok.alg.isHMAC = true → tok.sig = (tok.alg, secret, tok.claims) →
      tok.claims.expiresAt ≤ now →
      parseAccessToken secret now tok =
        .error (.wrap "invalid token" (.errorf "token is expired"))) ∧
    (tok.claims.expiresAt ≤ now → ∀ (j : JWTAuth) (s : Store),
      exceptFails (validateSession j s tok now) = true) := by
  refine ⟨?_, ?_, ?_, ?_⟩
  · intro halg
    simp [parseAccessToken, halg]
  · intro halg hsig
    simp [parseAccessToken, halg, hsig]
  · intro halg hsig hexp
    simp [parseAccessToken, halg, hsig, hexp]
  · intro hexp j s
    by_cases halg : tok.alg.isHMAC = true
    · by_cases hsig : tok.sig = (tok.alg, j.secretKey, tok.claims)
      · simp [validateSession, parseAccessToken, halg, hsig, hexp, exceptFails]
      · simp [validateSession, parseAccessToken, halg, hsig, exceptFails]
    · simp only [Bool.not_eq_true] at halg
      simp [validateSession, parseAccessToken, halg, exceptFails]

/-- Witness for C6: concrete tokens exercising the three rejection branches
and the expired-token failure of validateSession. -/
theorem parseAccessToken_rejections_witness :
    parseAccessToken "topsecret" 50
        ({ alg := .RS256,
           claims := { userID := 1, email := "e", username := "n",
                       expiresAt := 100, issuedAt := 0, subject := 1 },
           sig := (.RS256, "topsecret",
             { userID := 1, email := "e", username := "n",
               expiresAt := 100, issuedAt := 0, subject := 1 }) } : SignedTok AccessClaims) =
      .error (.wrap "invalid token" (.errorf "unexpected signing method")) ∧
    parseAccessToken "topsecret" 50
        (jwtSign .HS256 "othersecret"
          ({ userID := 1, email := "e", username := "n",
             expiresAt := 100, issuedAt := 0, subject := 1 } : AccessClaims)) =
      .error (.wrap "invalid token" (.errorf "token signature is invalid")) ∧
    parseAccessToken "topsecret" 150
        (jwtSign .HS256 "topsecret"
          ({ userID := 1, email := "e", username := "n",
             expiresAt := 100, issuedAt := 0, subject := 1 } : AccessClaims)) =
      .error (.wrap "invalid token" (.errorf "token is expired")) ∧
    exceptFails (validateSession jwtFix storeFix
        (jwtSign .HS256 "topsecret"
          ({ userID := 1, email := "alice@example.com", username := "alice",
             expiresAt := 100, issuedAt := 0, subject := 1 } : AccessClaims)) 150) = true :=
  ⟨(parseAccessToken_rejections "topsecret" 50 _).1 (by decide),
   (parseAccessToken_rejections "topsecret" 50 _).2.1 (by decide) (by decide),
   (parseAccessToken_rejections "topsecret" 150 _).2.2.1 (by decide) (by decide) (by decide),
   (parseAccessToken_rejections "topsecret" 150 _).2.2.2 (by decide) jwtFix storeFix⟩

/-! ## C5: what the repository persists for the refresh credential -/

/-- Reading the persisted refresh value back out of a signed refresh bearer
token: it sits verbatim in the claims payload, so projection recovers it
without any secret. -/
def recoverStoredFromBearer (t : SignedTok RefreshClaims) : String :=
  t.claims.tokenHash

/-- Counterexample for C5: on a concrete sign-in, the value the repository
persists is the raw freshly generated random value itself (the hex string
handed to generateRefreshToken), not a one-way hash of a bearer secret; the
very same value is embedded verbatim in the signed refresh bearer and is
recovered from it by plain claims projection.  The bearer is moreover
discarded by SignIn (its result carries only the account and the access
token), rather than being returned once to the caller. -/
theorem signIn_stores_raw_secret_cex :
    (match signIn jwtFix storeFix "alice@example.com" "secret1234" "RANDHEX" 99 7 with
      | .ok (_, _, s1) => s1.refreshTokens.map (fun rt => rt.tokenHash)
      | .error _ => []) = ["RHASH", "RANDHEX"] ∧
    recoverStoredFromBearer (generateRefreshToken jwtFix aliceFix "RANDHEX" 7).1 = "RANDHEX" ∧
    (generateRefreshToken jwtFix aliceFix "RANDHEX" 7).2 = "RANDHEX" := by
  decide

/-- C5 (amended): for every successful sign-in, the repository row persisted
for the refresh credential carries the freshly generated random value
verbatim; that same value is embedded in the claims of the signed refresh
bearer (so projection recovers the stored value from the bearer), and the
bearer itself is discarded by SignIn instead of being returned to the
caller. -/
theorem signIn_persists_generated_value (j : JWTAuth) (s : Store)
    (email password randHex : String) (rowID : Nat) (now : Time)
    (u : User) (tok : SignedTok AccessClaims) (s1 : Store)
    (h : signIn j s email password randHex rowID now = .ok (u, tok, s1)) :
    s1.refreshTokens = s.refreshTokens ++
      [{ id := rowID, userID := u.id, tokenHash := randHex,
         expiresAt := now + j.refreshTokenTTL, createdAt := now, revokedAt := none }] ∧
    (∀ v : User, recoverStoredFromBearer (generateRefreshToken j v randHex now).1 = randHex) := by
  constructor
  · unfold signIn at h
    split at h
    · cases h
    · split at h
      · cases h
      · split at h
        · cases h
        · simp only [Except.ok.injEq, Prod.mk.injEq] at h
          obtain ⟨hu, -, hs1⟩ := h
          subst hs1
          subst hu
          rfl
  · intro v
    rfl

/-- Witness for C5 (amended): the concrete sign-in of the counterexample run,
fed through the amended theorem. -/
theorem signIn_persists_generated_value_witness :
    (match signIn jwtFix storeFix "alice@example.com" "secret1234" "RANDHEX" 99 7 with
      | .ok (_, _, s1) => s1.refreshTokens
      | .error _ => []) =
      storeFix.refreshTokens ++
        [{ id := 99, userID := 1, tokenHash := "RANDHEX",
           expiresAt := 7 + jwtFix.refreshTokenTTL, createdAt := 7, revokedAt := none }] ∧
    recoverStoredFromBearer (generateRefreshToken jwtFix aliceFix "RANDHEX" 7).1 = "RANDHEX" := by
  have hrun := signIn_persists_generated_value jwtFix storeFix "alice@example.com" "secret1234"
    "RANDHEX" 99 7 ({ aliceFix with hashedPassword := .empty })
    (generateAccessToken jwtFix aliceFix 7) (postgresStoreRefreshToken storeFix 99 1 "RANDHEX"
      (7 + jwtFix.refreshTokenTTL) 7) (by decide)
  refine ⟨?_, hrun.2 aliceFix⟩
  have hmatch : (match signIn jwtFix storeFix "alice@example.com" "secret1234" "RANDHEX" 99 7 with
      | .ok (_, _, s1) => s1.refreshTokens
      | .error _ => ([] : List RefreshTokenRecord)) =
      (postgresStoreRefreshToken storeFix 99 1 "RANDHEX" (7 + jwtFix.refreshTokenTTL) 7).refreshTokens := by
    decide
  rw [hmatch]
  have := hrun.1
  simpa using this

/-! ## C2: single-use verification and reset tokens -/

/-- C2: once the consuming flow has marked a single-use token used, every
later validation of that token fails with ErrInvalidToken at every instant,
expired or not.  First conjunct: after RevokePasswordResetToken (the revoke
step of resetPassword) the reset token never validates again.  Second
conjunct: after MarkEmailVerified (the marking step of verifyEmail) has
committed for the account a verification token validated for, that token
never validates again; the token-uniqueness hypothesis mirrors the UNIQUE
constraint on email_verifications.token in the schema. -/
theorem singleUse_token_validates_once (s : Store) (t : String)
    (now₀ now₁ now₂ now₃ : Time) :
    postgresValidatePasswordResetToken (postgresRevokePasswordResetToken s t now₀) t now₁ =
      .error .invalidToken ∧
    (∀ (u : User) (s' : Store),
      postgresValidateVerificationToken s t now₀ = .ok u →
      (∀ ev ∈ s.emailVerifications, ev.token = t → ev.userID = u.id) →
      postgresMarkEmailVerified s u.id now₂ none = .ok s' →
      postgresValidateVerificationToken s' t now₃ = .error .invalidToken) := by
  constructor
  · have hnil : (postgresRevokePasswordResetToken s t now₀).passwordResets.filterMap
        (singleUseRowUser (postgresRevokePasswordResetToken s t now₀) t now₁) = [] := by
      rw [List.filterMap_eq_nil_iff]
      intro a ha
      simp only [postgresRevokePasswordResetToken, List.mem_map] at ha
      obtain ⟨pr, hpr, rfl⟩ := ha
      by_cases hc : (pr.token == t && pr.usedAt == none) = true
      · simp [hc, singleUseRowUser]
      · simp only [Bool.and_eq_true, beq_iff_eq, not_and] at hc
        by_cases htok : pr.token = t
        · have hused := hc htok
          simp [singleUseRowUser, htok, hused]
        · simp [singleUseRowUser, htok, hc]
    simp only [postgresValidatePasswordResetToken, hnil]
  · intro u s' _hval huniq hmark
    have hs' : s' =
        { s with
          users := s.users.map (fun v =>
            if v.id == u.id then { v with isVerified := true, updatedAt := now₂ } else v),
          emailVerifications := s.emailVerifications.map (fun ev =>
            if ev.userID == u.id && ev.usedAt == none then
              { ev with usedAt := some now₂ } else ev) } := by
      have : postgresMarkEmailVerified s u.id now₂ none =
          .ok { s with
            users := s.users.map (fun v =>
              if v.id == u.id then { v with isVerified := true, updatedAt := now₂ } else v),
            emailVerifications := s.emailVerifications.map (fun ev =>
              if ev.userID == u.id && ev.usedAt == none then
                { ev with usedAt := some now₂ } else ev) } := rfl
      rw [this] at hmark
      exact (Except.ok.inj hmark).symm
    subst hs'
    have hnil : (s.emailVerifications.map (fun ev =>
        if ev.userID == u.id && ev.usedAt == none then
          { ev with usedAt := some now₂ } else ev)).filterMap
          (singleUseRowUser
            { s with
              users := s.users.map (fun v =>
                if v.id == u.id then { v with isVerified := true, updatedAt := now₂ } else v),
              emailVerifications := s.emailVerifications.map (fun ev =>
                if ev.userID == u.id && ev.usedAt == none then
                  { ev with usedAt := some now₂ } else ev) } t now₃) = [] := by
      rw [List.filterMap_eq_nil_iff]
      intro a ha
      simp only [List.mem_map] at ha
      obtain ⟨ev, hev, rfl⟩ := ha
      by_cases htok : ev.token = t
      · have huid : ev.userID = u.id := huniq ev hev htok
        by_cases hused : ev.usedAt = none
        · simp [singleUseRowUser, huid, hused]
        · simp [singleUseRowUser, huid, hused]
      · by_cases hc : (ev.userID == u.id && ev.usedAt == none) = true
        · simp [singleUseRowUser, hc, htok]
        · simp [singleUseRowUser, hc, htok]
    simp only [postgresValidateVerificationToken]
    rw [hnil]

/-- Witness for C2: on the sample store, the reset token PTOK no longer
validates after revocation, and the verification token VTOK no longer
validates after MarkEmailVerified committed for account 1, both well before
expiry. -/
theorem singleUse_token_validates_once_witness :
    postgresValidatePasswordResetToken
        (postgresRevokePasswordResetToken storeFix "PTOK" 5) "PTOK" 6 =
      .error .invalidToken ∧
    postgresValidateVerificationToken
        { storeFix with
          users := storeFix.users.map (fun v =>
            if v.id == 1 then { v with isVerified := true, updatedAt := 5 } else v),
          emailVerifications := storeFix.emailVerifications.map (fun ev =>
            if ev.userID == 1 && ev.usedAt == none then
              { ev with usedAt := some 5 } else ev) } "VTOK" 6 =
      .error .invalidToken :=
  ⟨(singleUse_token_validates_once storeFix "PTOK" 5 6 5 6).1,
   (singleUse_token_validates_once storeFix "VTOK" 4 6 5 6).2 aliceFix _
      (by decide) (by decide) rfl⟩

/-! ## C3: refresh revocation is permanent and sign-out idempotent -/

/-- C3: once a refresh secret has been revoked through signOut, every later
refreshSession with the same bearer fails with the wrapped ErrInvalidToken
(first conjunct), a second signOut with the same bearer succeeds rather than
erroring (second conjunct, idempotence at the service boundary), and a
secret whose stored records have all expired likewise fails refreshSession
with the same error (third conjunct).  The bounds now₁/now₂ keep the bearer
JWT itself unexpired, isolating the repository-side behaviour the claim is
about. -/
theorem refresh_revocation_permanent (j : JWTAuth) (s s' : Store)
    (tok : SignedTok RefreshClaims) (now₀ now₁ now₂ : Time)
    (hso : signOut j s tok now₀ = .ok s')
    (h₁ : now₁ < tok.claims.expiresAt) (h₂ : now₂ < tok.claims.expiresAt) :
    refreshSession j s' tok now₁ = .error (.wrap "invalid refresh token" .invalidToken) ∧
    signOut j s' tok now₂ = .ok (postgresRevokeRefreshToken s' tok.claims.tokenHash now₂) ∧
    (∀ s₂ : Store,
      (∀ rt ∈ s₂.refreshTokens, rt.tokenHash = tok.claims.tokenHash →
        rt.expiresAt ≤ now₁) →
      refreshSession j s₂ tok now₁ = .error (.wrap "invalid refresh token" .invalidToken)) := by
  have hparse₀ := hso
  unfold signOut at hparse₀
  rcases hp : parseRefreshToken j.secretKey now₀ tok with e | claims
  · rw [hp] at hparse₀
    cases hparse₀
  · rw [hp] at hparse₀
    have hs' : s' = postgresRevokeRefreshToken s claims.tokenHash now₀ :=
      (Except.ok.inj hparse₀).symm
    have hfacts : tok.alg.isHMAC = true ∧ tok.sig = (tok.alg, j.secretKey, tok.claims) ∧
        claims = tok.claims := by
      unfold parseRefreshToken at hp
      split_ifs at hp with hA hB hC
      all_goals first
        | exact Except.noConfusion hp
        | · refine ⟨?_, not_not.mp hB, (Except.ok.inj hp).symm⟩
            revert hA
            cases tok.alg.isHMAC <;> simp
    obtain ⟨halg, hsig, hclaims⟩ := hfacts
    subst hclaims
    have hparse : ∀ n, n < tok.claims.expiresAt →
        parseRefreshToken j.secretKey n tok = .ok tok.claims := by
      intro n hn
      have hc₁ : ¬ tok.alg.isHMAC = false := by simp [halg]
      have hc₂ : ¬ tok.sig ≠ (tok.alg, j.secretKey, tok.claims) := by simp [hsig]
      have hc₃ : ¬ tok.claims.expiresAt ≤ n := Nat.not_le.mpr hn
      unfold parseRefreshToken
      rw [if_neg hc₁, if_neg hc₂, if_neg hc₃]
    have hvalNil : ∀ (sb : Store) (nb : Time),
        (∀ rt ∈ sb.refreshTokens, rt.tokenHash = tok.claims.tokenHash →
          (rt.revokedAt ≠ none ∨ rt.expiresAt ≤ nb)) →
        postgresValidateRefreshToken sb tok.claims.tokenHash nb = .error .invalidToken := by
      intro sb nb hbad
      have hnil : sb.refreshTokens.filterMap (refreshRowUser sb tok.claims.tokenHash nb) = [] := by
        rw [List.filterMap_eq_nil_iff]
        intro rt hrt
        by_cases hh : rt.tokenHash = tok.claims.tokenHash
        · rcases hbad rt hrt hh with hrev | hexp
          · simp [refreshRowUser, hh, hrev]
          · simp [refreshRowUser, hh, Nat.not_lt.mpr hexp]
        · simp [refreshRowUser, hh]
      simp only [postgresValidateRefreshToken, hnil]
    subst hs'
    have hbad : ∀ rt ∈ (postgresRevokeRefreshToken s tok.claims.tokenHash now₀).refreshTokens,
        rt.tokenHash = tok.claims.tokenHash → (rt.revokedAt ≠ none ∨ rt.expiresAt ≤ now₁) := by
      intro rt hrt hh
      simp only [postgresRevokeRefreshToken, List.mem_map] at hrt
      obtain ⟨rt0, _hrt0, rfl⟩ := hrt
      by_cases hc : (rt0.tokenHash == tok.claims.tokenHash && rt0.revokedAt == none) = true
      · left
        simp [hc]
      · left
        rw [if_neg hc] at hh ⊢
        simp only [Bool.and_eq_true, beq_iff_eq, not_and] at hc
        exact fun hnone => hc hh hnone
    refine ⟨?_, ?_, ?_⟩
    · have hred : refreshSession j (postgresRevokeRefreshToken s tok.claims.tokenHash now₀)
          tok now₁ =
          match postgresValidateRefreshToken
              (postgresRevokeRefreshToken s tok.claims.tokenHash now₀)
              tok.claims.tokenHash now₁ with
          | .error e => .error (.wrap "invalid refresh token" e)
          | .ok user =>
            .ok ({ user with hashedPassword := .empty }, generateAccessToken j user now₁) := by
        unfold refreshSession
        rw [hparse now₁ h₁]
      rw [hred, hvalNil _ now₁ hbad]
    · unfold signOut
      rw [hparse now₂ h₂]
    · intro s₂ hexp
      have hred : refreshSession j s₂ tok now₁ =
          match postgresValidateRefreshToken s₂ tok.claims.tokenHash now₁ with
          | .error e => .error (.wrap "invalid refresh token" e)
          | .ok user =>
            .ok ({ user with hashedPassword := .empty }, generateAccessToken j user now₁) := by
        unfold refreshSession
        rw [hparse now₁ h₁]
      rw [hred, hvalNil s₂ now₁ (fun rt hrt hh => Or.inr (hexp rt hrt hh))]

/-- Witness for C3: revoking the live refresh bearer of the sample store,
then refreshing with it, fails with the wrapped ErrInvalidToken, and a
second signOut with the same bearer still succeeds. -/
theorem refresh_revocation_permanent_witness :
    refreshSession jwtFix (postgresRevokeRefreshToken storeFix "RHASH" 5)
        (jwtSign .HS256 "topsecret"
          ({ userID := 1, tokenHash := "RHASH", expiresAt := 1000,
             issuedAt := 0, subject := 1 } : RefreshClaims)) 6 =
      .error (.wrap "invalid refresh token" .invalidToken) ∧
    signOut jwtFix (postgresRevokeRefreshToken storeFix "RHASH" 5)
        (jwtSign .HS256 "topsecret"
          ({ userID := 1, tokenHash := "RHASH", expiresAt := 1000,
             issuedAt := 0, subject := 1 } : RefreshClaims)) 7 =
      .ok (postgresRevokeRefreshToken (postgresRevokeRefreshToken storeFix "RHASH" 5)
            "RHASH" 7) :=
  ⟨(refresh_revocation_permanent jwtFix storeFix
      (postgresRevokeRefreshToken storeFix "RHASH" 5)
      (jwtSign .HS256 "topsecret"
        ({ userID := 1, tokenHash := "RHASH", expiresAt := 1000,
           issuedAt := 0, subject := 1 } : RefreshClaims)) 5 6 7
      (by decide) (by decide) (by decide)).1,
   (refresh_revocation_permanent jwtFix storeFix
      (postgresRevokeRefreshToken storeFix "RHASH" 5)
      (jwtSign .HS256 "topsecret"
        ({ userID := 1, tokenHash := "RHASH", expiresAt := 1000,
           issuedAt := 0, subject := 1 } : RefreshClaims)) 5 6 7
      (by decide) (by decide) (by decide)).2.1⟩

/-! ## C8: rate limiter -/

/-- Counterexample for C8: with threshold N = 2 and window W = 10, requests at
instants 0 and 9 are counted and the request at instant 11 is rejected, even
though more than W = 10 has elapsed since the window start 0.  The EXPIRE
issued for the request at 9 extended the TTL of the key to 19, so the
counter had not reset — refuting "the first request after W has elapsed
since the window start succeeds and resets the count". -/
theorem rateLimiter_window_reset_cex :
    (runRateLimiter 2 10 none [0, 9, 11]).1 = [true, true, false] ∧
    (0 : Nat) + 10 < 11 := by
  decide

/-- Saturation run of the limiter: starting from a live entry whose expiry is
at least B, requests below B keep the key alive, are all allowed while the
counter stays below the threshold, and leave the expiry at least B. -/
theorem runRateLimiter_saturates (N W : Nat) (B : Time) (ts : List Time) :
    ∀ (c : Nat) (e : Time),
      (∀ t ∈ ts, t < B ∧ B ≤ t + W) → B ≤ e → c + ts.length ≤ N →
      ∃ e', runRateLimiter N W (some ⟨c, e⟩) ts =
          (List.replicate ts.length true, some ⟨c + ts.length, e'⟩) ∧ B ≤ e' := by
  induction ts with
  | nil =>
    intro c e _ he _
    exact ⟨e, rfl, he⟩
  | cons t ts ih =>
    intro c e hts he hlen
    have ht := hts t (List.mem_cons_self t ts)
    have hlt : t < e := lt_of_lt_of_le ht.1 he
    have hcN : c < N := by
      simp only [List.length_cons] at hlen
      omega
    have hstep : rateLimitStep N W (some ⟨c, e⟩) t = (true, some ⟨c + 1, t + W⟩) := by
      simp [rateLimitStep, redisGetCount, redisIncrExpire, hlt, Nat.not_le.mpr hcN]
    obtain ⟨e', hrun, hbe'⟩ := ih (c + 1) (t + W)
      (fun x hx => hts x (List.mem_cons_of_mem _ hx)) ht.2
      (by simp only [List.length_cons] at hlen; omega)
    refine ⟨e', ?_, hbe'⟩
    have harith : c + 1 + ts.length = c + (ts.length + 1) := by omega
    simp only [runRateLimiter, hstep, hrun, List.length_cons, List.replicate_succ, harith]

/-- Composition of limiter runs over appended request sequences. -/
theorem runRateLimiter_append (N W : Nat) (l1 l2 : List Time) :
    ∀ st : RLState, runRateLimiter N W st (l1 ++ l2) =
      ((runRateLimiter N W st l1).1 ++
         (runRateLimiter N W (runRateLimiter N W st l1).2 l2).1,
       (runRateLimiter N W (runRateLimiter N W st l1).2 l2).2) := by
  induction l1 with
  | nil => intro st; simp [runRateLimiter]
  | cons t l1 ih => intro st; simp [runRateLimiter, ih]

/-- C8 (amended): for threshold N and window W, (first conjunct) out of N + 1
requests on one key that all arrive within W of the first, the first N are
allowed and the last is rejected, exactly as the claim states; (second
conjunct, the amended reset rule) a request arriving once the TTL of the key has
lapsed is allowed and restarts a fresh window at count 1 — but (third
conjunct) every allowed request pushes the expiry of the key out to a full
window from its own arrival, so the window is measured from the last
counted request, not from the window start as the claim stated. -/
theorem rateLimiter_threshold_and_reset (N W : Nat) (hN : 0 < N)
    (t0 tLast : Time) (mid : List Time)
    (hmid : ∀ t ∈ mid, t0 ≤ t ∧ t < t0 + W)
    (hlen : mid.length = N - 1)
    (hfirst : t0 ≤ tLast) (hlast : tLast < t0 + W) :
    (runRateLimiter N W none (t0 :: (mid ++ [tLast]))).1 =
      List.replicate N true ++ [false] ∧
    (∀ (ent : RLEntry) (now : Time), ent.expiresAt ≤ now →
      rateLimitStep N W (some ent) now = (true, some ⟨1, now + W⟩)) ∧
    (∀ (st : RLState) (now : Time) (st' : RLState),
      rateLimitStep N W st now = (true, st') →
      st' = some ⟨redisGetCount st now + 1, now + W⟩) := by
  refine ⟨?_, ?_, ?_⟩
  · have hstep0 : rateLimitStep N W none t0 = (true, some ⟨1, t0 + W⟩) := by
      simp [rateLimitStep, redisGetCount, redisIncrExpire, Nat.not_le.mpr hN]
    obtain ⟨e', hrun, hbe'⟩ := runRateLimiter_saturates N W (t0 + W) mid 1 (t0 + W)
      (fun t ht => ⟨(hmid t ht).2, Nat.add_le_add_right (hmid t ht).1 W⟩)
      le_rfl (by omega)
    have hcount : 1 + mid.length = N := by omega
    have hltL : tLast < e' := lt_of_lt_of_le hlast hbe'
    have hstepL : rateLimitStep N W (some ⟨1 + mid.length, e'⟩) tLast =
        (false, some ⟨1 + mid.length, e'⟩) := by
      simp [rateLimitStep, redisGetCount, hltL, hcount]
    have hsingle : runRateLimiter N W (some ⟨1 + mid.length, e'⟩) [tLast] =
        ([false], some ⟨1 + mid.length, e'⟩) := by
      simp [runRateLimiter, hstepL]
    calc (runRateLimiter N W none (t0 :: (mid ++ [tLast]))).1
        = (rateLimitStep N W none t0).1 ::
            (runRateLimiter N W (rateLimitStep N W none t0).2 (mid ++ [tLast])).1 := rfl
      _ = true :: (runRateLimiter N W (some ⟨1, t0 + W⟩) (mid ++ [tLast])).1 := by
            rw [hstep0]
      _ = true :: (List.replicate mid.length true ++ [false]) := by
            rw [runRateLimiter_append]
            simp [hrun, hsingle]
      _ = List.replicate N true ++ [false] := by
            have hrep : List.replicate N true = true :: List.replicate mid.length true := by
              rw [← hcount, Nat.add_comm]
              simp [List.replicate_succ]
            rw [hrep]
            rfl
  · intro ent now hexp
    simp [rateLimitStep, redisGetCount, redisIncrExpire,
      Nat.not_lt.mpr hexp, Nat.not_le.mpr hN]
  · intro st now st' hstep
    have hie : redisIncrExpire st now W = some ⟨redisGetCount st now + 1, now + W⟩ := by
      rcases st with _ | ent
      · rfl
      · by_cases hlt : now < ent.expiresAt <;> simp [redisIncrExpire, redisGetCount, hlt]
    by_cases hge : N ≤ redisGetCount st now
    · unfold rateLimitStep at hstep
      rw [if_pos hge] at hstep
      simp at hstep
    · unfold rateLimitStep at hstep
      rw [if_neg hge] at hstep
      have hst' : redisIncrExpire st now W = st' := (Prod.ext_iff.mp hstep).2
      rw [← hst', hie]

/-- Witness for C8 (amended): with N = 2 and W = 10, the run [0, 5, 9] allows
two requests and rejects the third, and a request at 12 against an entry
expired at 10 is allowed with a fresh window. -/
theorem rateLimiter_threshold_and_reset_witness :
    (runRateLimiter 2 10 none ((0 : Time) :: ([5] ++ [9]))).1 =
      List.replicate 2 true ++ [false] ∧
    rateLimitStep 2 10 (some ⟨2, 10⟩) 12 = (true, some ⟨1, 22⟩) :=
  ⟨(rateLimiter_threshold_and_reset 2 10 (by decide) 0 9 [5]
      (by decide) (by decide) (by decide) (by decide)).1,
   (rateLimiter_threshold_and_reset 2 10 (by decide) 0 9 [5]
      (by decide) (by decide) (by decide) (by decide)).2.1 ⟨2, 10⟩ 12 (by decide)⟩

/-! ## C9: sign-up, sign-in, validate-session round trip -/

/-- The end-to-end scenario the spec states: signUp (CreateUser), then signIn
with the same credentials against the resulting store, then validateSession
on the access token signIn returned, each stage aborting on error. -/
def signUpSignInValidate (j : JWTAuth) (s : Store) (email password username : String)
    (newID cost salt rowID : Nat) (randHex : String) (now₀ now₁ now₂ : Time) :
    Except AuthErr User :=
  match createUser j s email password username newID cost salt now₀ with
  | .error e => .error e
  | .ok (_, s1) =>
    match signIn j s1 email password randHex rowID now₁ with
    | .error e => .error e
    | .ok (_, tok, s2) => validateSession j s2 tok now₂

/-- Whether the round trip succeeded and returned the account that was signed
up. -/
def signUpSignInValidateOk (j : JWTAuth) (s : Store) (email password username : String)
    (newID cost salt rowID : Nat) (randHex : String) (now₀ now₁ now₂ : Time) : Bool :=
  match signUpSignInValidate j s email password username newID cost salt rowID randHex
      now₀ now₁ now₂ with
  | .ok u => u.email == email && u.username == username && u.id == newID
  | .error _ => false

/-- The account record CreateUser builds and inserts, named so the round-trip
proof can track it through the stores. -/
def createdUser (email username password : String) (newID cost salt : Nat)
    (now₀ : Time) : User :=
  { id := newID, email := email, username := username,
    hashedPassword := bcryptGenerateFromPassword cost salt password,
    fullName := "", bio := "", profilePicture := "",
    isActive := true, isVerified := false, isPrivate := false,
    followersCount := 0, followingCount := 0, postsCount := 0,
    createdAt := now₀, updatedAt := now₀, lastLoginAt := none }

/-- Projections of createdUser, as rewrite rules for the round-trip proof. -/
theorem createdUser_fields (email username password : String) (newID cost salt : Nat)
    (now₀ : Time) :
    (createdUser email username password newID cost salt now₀).id = newID ∧
    (createdUser email username password newID cost salt now₀).email = email ∧
    (createdUser email username password newID cost salt now₀).username = username ∧
    (createdUser email username password newID cost salt now₀).isActive = true ∧
    (createdUser email username password newID cost salt now₀).hashedPassword =
      bcryptGenerateFromPassword cost salt password :=
  ⟨rfl, rfl, rfl, rfl, rfl⟩

/-- A store whose only account holds the username alice under a different
email, so the email alice@example.com is unregistered while the username
alice is taken. -/
def usernameTakenStore : Store :=
  { users := [{ aliceFix with
                id := 5, email := "bob@example.com" }],
    refreshTokens := [], emailVerifications := [], passwordResets := [] }

/-- Counterexample for C9: a valid triple with no pre-existing account for its
email on which signUp nevertheless fails.  CreateUser only checks that the
email is free (GetUserByEmail) before inserting, and the INSERT then
violates the UNIQUE(username) constraint of the users table when another
account already holds the username, so the whole round trip fails where the
claim says it succeeds. -/
theorem signUp_taken_username_cex :
    usernameTakenStore.users.all (fun u => u.email != "alice@example.com") = true ∧
    createUser jwtFix usernameTakenStore "alice@example.com" "secret1234" "alice"
        1 10 7 0 =
      .error (.wrap "failed to create user"
        (.wrap "failed to create user" (.errorf "unique constraint violation"))) ∧
    signUpSignInValidateOk jwtFix usernameTakenStore "alice@example.com" "secret1234"
      "alice" 1 10 7 42 "RANDHEX" 0 10 20 = false := by
  decide

/-- C9 (amended): for every valid triple whose email is unregistered, whose
username is not already taken by any account, and whose generated id is
fresh (modelling uuid.New), signUp succeeds, the subsequent signIn with the
same email and password succeeds, and the access token it returns is
accepted by validateSession while unexpired, yielding the account that was
signed up. -/
theorem signUp_signIn_validate_roundtrip (j : JWTAuth) (s : Store)
    (email password username : String) (newID cost salt rowID : Nat)
    (randHex : String) (now₀ now₁ now₂ : Time)
    (hfresh : ∀ u ∈ s.users, u.email ≠ email ∧ u.username ≠ username ∧ u.id ≠ newID)
    (hexp : now₂ < now₁ + j.accessTokenTTL) :
    signUpSignInValidateOk j s email password username newID cost salt rowID randHex
      now₀ now₁ now₂ = true := by
  have hget : postgresGetUserByEmail s email = .error .userNotFound := by
    unfold postgresGetUserByEmail
    have hfind : s.users.find? (fun u => u.email == email && u.isActive) = none :=
      List.find?_eq_none.mpr (fun u hu => by simp [(hfresh u hu).1])
    rw [hfind]
  have hany : (s.users.any (fun v =>
      v.email == email || v.username == username || v.id == newID)) = false := by
    rw [List.any_eq_false]
    intro v hv
    simp [(hfresh v hv).1, (hfresh v hv).2.1, (hfresh v hv).2.2]
  obtain ⟨hcid, hcemail, hcuser, hcact, hcpw⟩ :=
    createdUser_fields email username password newID cost salt now₀
  have h1 : createUser j s email password username newID cost salt now₀ =
      .ok ({ createdUser email username password newID cost salt now₀ with
              hashedPassword := .empty },
           { s with users := s.users ++
              [createdUser email username password newID cost salt now₀] }) := by
    simp [createUser, hget, postgresCreateUser, hany, createdUser]
  have hfind1 :
      (s.users ++ [createdUser email username password newID cost salt now₀]).find?
        (fun u => u.email == email && u.isActive) =
      some (createdUser email username password newID cost salt now₀) :=
    find?_append_singleton _ _ _ (fun u hu => by simp [(hfresh u hu).1])
      (by simp [hcemail, hcact])
  have hfindID :
      (s.users ++ [createdUser email username password newID cost salt now₀]).find?
        (fun u => u.id == newID) =
      some (createdUser email username password newID cost salt now₀) :=
    find?_append_singleton _ _ _ (fun u hu => by simp [(hfresh u hu).2.2])
      (by simp [hcid])
  have hbc : bcryptCompareHashAndPassword
      (createdUser email username password newID cost salt now₀).hashedPassword
      password = true := by
    simp [hcpw, bcryptGenerateFromPassword, bcryptCompareHashAndPassword]
  simp [signUpSignInValidateOk, signUpSignInValidate, h1, signIn,
    postgresGetUserByEmail, hfind1, hbc, generateAccessToken, jwtSign,
    validateSession, parseAccessToken, Alg.isHMAC, postgresStoreRefreshToken,
    postgresGetUserByID, hfindID, Nat.not_le.mpr hexp,
    hcid, hcemail, hcuser, hcact]

/-- Witness for C9: the concrete round trip from the empty store. -/
theorem signUp_signIn_validate_roundtrip_witness :
    signUpSignInValidateOk jwtFix emptyStore "alice@example.com" "secret1234" "alice"
      1 10 7 42 "RANDHEX" 0 10 20 = true :=
  signUp_signIn_validate_roundtrip jwtFix emptyStore "alice@example.com" "secret1234"
    "alice" 1 10 7 42 "RANDHEX" 0 10 20 (by simp [emptyStore]) (by decide)

end Fowergram
